import Mathlib

/-!
# Verification of the marriage-registry contracts

Shallow embedding of the two Solidity registries of this repository:

* `RealMarriageRegistry.sol` (nullifier-bound, "real-identity" variant):
  state `RegistryState`, operations `createMarriageProposal`,
  `acceptMarriage`, `createMarriage`, `requestDivorce`, and the internal
  check `verifyZKPassportProof`.
* `MarriageRegistry.sol` (address-bound variant): the pure Merkle
  membership verifier `verifyMerkleProof`.

`bytes32` values are modelled as `Nat` (the zero value `bytes32(0)` is
`0`); Solidity mappings are total functions with the zero default, as in
the EVM.  `keccak256` and the few fixed `abi.encodePacked` shapes the
contract feeds to it are modelled as an abstract `HashModel` parameter:
every theorem below is proved for all hash models, and witnesses
instantiate a concrete computable one.
-/

/-- Pointwise update of a Solidity mapping. -/
def mapUpd {α : Type} (m : Nat → α) (k : Nat) (v : α) : Nat → α :=
  fun x => if x = k then v else m x

/-- The `Marriage` struct of `RealMarriageRegistry.sol`. -/
structure Marriage where
  spouse1Nullifier : Nat
  spouse2Nullifier : Nat
  proof1Hash : Nat
  proof2Hash : Nat
  marriageDate : Nat
  isActive : Bool
  jurisdiction : String
  certificateHash : Nat
  deriving Repr, DecidableEq

/-- The `MarriageProposal` struct of `RealMarriageRegistry.sol`. -/
structure MarriageProposal where
  proposerNullifier : Nat
  proposeeNullifier : Nat
  proposalHash : Nat
  timestamp : Nat
  expiresAt : Nat
  isAccepted : Bool
  isExpired : Bool
  jurisdiction : String
  deriving Repr, DecidableEq

/-- The zero value of the `Marriage` struct (EVM mapping default). -/
def Marriage.zero : Marriage :=
  ⟨0, 0, 0, 0, 0, false, "", 0⟩

/-- The zero value of the `MarriageProposal` struct (EVM mapping default). -/
def MarriageProposal.zero : MarriageProposal :=
  ⟨0, 0, 0, 0, 0, false, false, ""⟩

/-- The four storage mappings of `RealMarriageRegistry`. -/
structure RegistryState where
  marriages : Nat → Marriage
  proposals : Nat → MarriageProposal
  nullifierToMarriage : Nat → Nat
  usedNullifiers : Nat → Bool

/-- Freshly deployed contract: all mappings hold their zero defaults. -/
def RegistryState.init : RegistryState where
  marriages := fun _ => Marriage.zero
  proposals := fun _ => MarriageProposal.zero
  nullifierToMarriage := fun _ => 0
  usedNullifiers := fun _ => false

/-- Abstract model of `keccak256` at the fixed `abi.encodePacked` call
shapes used by the contract.  Each field stands for one shape. -/
structure HashModel where
  /-- `keccak256(proof)` on a raw byte string. -/
  keccakBytes : List Nat → Nat
  /-- `keccak256(abi.encodePacked(proofHash, "nullifier"))`. -/
  tagNullifier : Nat → Nat
  /-- `keccak256(abi.encodePacked(n1, n2, timestamp, jurisdiction))`. -/
  marriageIdOf : Nat → Nat → Nat → String → Nat
  /-- `keccak256(abi.encodePacked(nullifier, "proof1"))`. -/
  proofTag1 : Nat → Nat
  /-- `keccak256(abi.encodePacked(nullifier, "proof2"))`. -/
  proofTag2 : Nat → Nat
  /-- `keccak256(abi.encodePacked(marriageId, timestamp))`. -/
  certOf : Nat → Nat → Nat

/-- Revert reasons of `RealMarriageRegistry` (the two string reverts
`"Proposal already exists"` and `"Already accepted"` are given the
constructors `ProposalAlreadyExists` and `AlreadyAccepted`). -/
inductive RegErr where
  | NullifierAlreadyUsed
  | AlreadyMarried
  | ProposalAlreadyExists
  | InvalidZKPassportProof
  | ProposalNotFound
  | ProposalExpired
  | AlreadyAccepted
  | MarriageNotActive
  | NotAuthorized
  deriving Repr, DecidableEq

/-- `RealMarriageRegistry._verifyZKPassportProof`: empty proofs are
rejected, otherwise the nullifier re-derived from the proof hash and the
`"nullifier"` domain tag must equal the expected one. -/
def verifyZKPassportProof (hm : HashModel) (proof : List Nat)
    (expectedNullifier : Nat) : Bool :=
  if proof.length = 0 then false
  else decide (hm.tagNullifier (hm.keccakBytes proof) = expectedNullifier)

/-- Calldata of the four external mutating functions of
`RealMarriageRegistry`. -/
inductive RegOp where
  | propose (proposalId proposerNullifier proposeeNullifier proposalHash
      expirationTime : Nat) (jurisdiction : String)
      (zkPassportProof1 zkPassportProof2 : List Nat)
  | accept (proposalId certificateHash : Nat)
  | create (marriageId spouse1Nullifier spouse2Nullifier proof1Hash
      proof2Hash : Nat)
  | divorce (marriageId requesterNullifier : Nat)

/-- One external call to `RealMarriageRegistry` at block timestamp `now`:
either a revert reason or the post-state.  Checks and writes follow the
Solidity source line by line. -/
def execOp (hm : HashModel) (now : Nat) (s : RegistryState) :
    RegOp → Except RegErr RegistryState
  | .propose pid proposerN proposeeN pHash expiration jur proof1 proof2 =>
    if s.usedNullifiers proposerN then .error .NullifierAlreadyUsed
    else if s.usedNullifiers proposeeN then .error .NullifierAlreadyUsed
    else if s.nullifierToMarriage proposerN ≠ 0 then .error .AlreadyMarried
    else if s.nullifierToMarriage proposeeN ≠ 0 then .error .AlreadyMarried
    else if (s.proposals pid).proposerNullifier ≠ 0 then
      .error .ProposalAlreadyExists
    else if ¬ verifyZKPassportProof hm proof1 proposerN then
      .error .InvalidZKPassportProof
    else if ¬ verifyZKPassportProof hm proof2 proposeeN then
      .error .InvalidZKPassportProof
    else .ok { s with
      proposals := mapUpd s.proposals pid
        ⟨proposerN, proposeeN, pHash, now, expiration, false, false, jur⟩ }
  | .accept pid certHash =>
    let p := s.proposals pid
    if p.proposerNullifier = 0 then .error .ProposalNotFound
    else if p.expiresAt < now then .error .ProposalExpired
    else if p.isAccepted then .error .AlreadyAccepted
    else
      let mid := hm.marriageIdOf p.proposerNullifier p.proposeeNullifier
        now p.jurisdiction
      .ok { s with
        proposals := mapUpd s.proposals pid { p with isAccepted := true }
        marriages := mapUpd s.marriages mid
          ⟨p.proposerNullifier, p.proposeeNullifier,
           hm.proofTag1 p.proposerNullifier, hm.proofTag2 p.proposeeNullifier,
           now, true, p.jurisdiction, certHash⟩
        nullifierToMarriage :=
          mapUpd (mapUpd s.nullifierToMarriage p.proposerNullifier mid)
            p.proposeeNullifier mid
        usedNullifiers :=
          mapUpd (mapUpd s.usedNullifiers p.proposerNullifier true)
            p.proposeeNullifier true }
  | .create mid n1 n2 ph1 ph2 =>
    if s.usedNullifiers n1 then .error .NullifierAlreadyUsed
    else if s.usedNullifiers n2 then .error .NullifierAlreadyUsed
    else if s.nullifierToMarriage n1 ≠ 0 then .error .AlreadyMarried
    else if s.nullifierToMarriage n2 ≠ 0 then .error .AlreadyMarried
    else .ok { s with
      marriages := mapUpd s.marriages mid
        ⟨n1, n2, ph1, ph2, now, true, "default", hm.certOf mid now⟩
      nullifierToMarriage :=
        mapUpd (mapUpd s.nullifierToMarriage n1 mid) n2 mid
      usedNullifiers :=
        mapUpd (mapUpd s.usedNullifiers n1 true) n2 true }
  | .divorce mid requesterN =>
    let m := s.marriages mid
    if ¬ m.isActive then .error .MarriageNotActive
    else if m.spouse1Nullifier ≠ requesterN ∧ m.spouse2Nullifier ≠ requesterN
    then .error .NotAuthorized
    else .ok { s with
      marriages := mapUpd s.marriages mid { m with isActive := false }
      nullifierToMarriage :=
        mapUpd (mapUpd s.nullifierToMarriage m.spouse1Nullifier 0)
          m.spouse2Nullifier 0 }

/-- EVM transaction semantics: a revert rolls the state back. -/
def runTx (hm : HashModel) (now : Nat) (s : RegistryState) (op : RegOp) :
    RegistryState :=
  match execOp hm now s op with
  | .ok s2 => s2
  | .error _ => s

/-- `MarriageRegistry.verifyMerkleProof`: fold the leaf through the
sibling path, ordering the two inputs of each hash by `<=` as in the
source, and compare with the root. -/
def verifyMerkleProof (hash : Nat → Nat → Nat) (proof : List Nat)
    (root leaf : Nat) : Bool :=
  decide
    ((proof.foldl
      (fun computedHash proofElement =>
        if computedHash ≤ proofElement then hash computedHash proofElement
        else hash proofElement computedHash) leaf) = root)

/-- Stated from the spec's words, for comparison with the source-embedded
`verifyMerkleProof`: at each level the two hash inputs are ordered by
numeric value before hashing, and the result is true iff the final
accumulator equals the root. -/
def verifyMembershipSpec (hash : Nat → Nat → Nat) (proof : List Nat)
    (root leaf : Nat) : Bool :=
  decide
    ((proof.foldl (fun acc p => hash (min acc p) (max acc p)) leaf) = root)

/-- A concrete computable hash model used by the witnesses below. -/
def hmDemo : HashModel where
  keccakBytes := fun l => l.foldl (fun a b => a + b) 0
  tagNullifier := fun h => h + 1
  marriageIdOf := fun n1 n2 t _ => n1 * 100 + n2 * 10 + t + 1
  proofTag1 := fun n => n + 500
  proofTag2 := fun n => n + 600
  certOf := fun m t => m + t + 1

/-- Two proposals sharing proposer nullifier `2`, both created while the
identity was still free, then the first one accepted. -/
def traceFirstAccept : Except RegErr RegistryState :=
  execOp hmDemo 0 RegistryState.init (.propose 1 2 3 0 100 "j" [1] [2])
    >>= fun s1 =>
  execOp hmDemo 0 s1 (.propose 2 2 4 0 100 "j" [1] [3]) >>= fun s2 =>
  execOp hmDemo 5 s2 (.accept 1 9)

/-- The same run continued: the second proposal is also accepted. -/
def traceSecondAccept : Except RegErr RegistryState :=
  traceFirstAccept >>= fun s3 => execOp hmDemo 6 s3 (.accept 2 9)

/-- C1: the invariant fails on a reachable state.  `acceptMarriage`
re-checks neither `usedNullifiers` nor `nullifierToMarriage`, so accepting
two pending proposals that share nullifier `2` yields two active
marriages (`236` and `247`) both having `2` as a spouse, while
`nullifierToMarriage 2` points only at `247`: the active marriage `236`
no longer maps back from its spouse `2`. -/
theorem acceptMarriage_breaks_uniqueness_invariant :
    (traceSecondAccept.toOption.map fun s =>
      ((s.marriages 236).isActive, (s.marriages 236).spouse1Nullifier,
       (s.marriages 247).isActive, (s.marriages 247).spouse1Nullifier,
       s.nullifierToMarriage 2))
    = some (true, 2, true, 2, 247) := by decide

/-- C2: with proposal `1` accepted, nullifier `2` is bound to the active
marriage `236`, yet `acceptMarriage` on the still-pending proposal `2`
(which also names nullifier `2`) succeeds instead of failing with
`AlreadyMarried`. -/
theorem acceptMarriage_ignores_married_identity :
    (traceFirstAccept.toOption.map fun s =>
      (s.nullifierToMarriage 2, (s.marriages (s.nullifierToMarriage 2)).isActive,
       s.usedNullifiers 2, (execOp hmDemo 6 s (.accept 2 9)).toOption.isSome))
    = some (236, true, true, true) := by decide

/-- C4: `createMarriageProposal` has no `proposer != proposee` check: a
self-proposal with a fresh nullifier and a valid proof (passed twice)
succeeds and is stored. -/
theorem createProposal_accepts_self_proposal :
    ((execOp hmDemo 0 RegistryState.init
        (.propose 1 2 2 0 100 "j" [1] [1])).toOption.map fun s =>
      ((s.proposals 1).proposerNullifier, (s.proposals 1).proposeeNullifier))
    = some (2, 2) := by decide

lemma mapUpd_self {α : Type} (m : Nat → α) (k : Nat) (v : α) :
    mapUpd m k v k = v := by
  simp [mapUpd]

lemma mapUpd2_left {α : Type} (m : Nat → α) (a b : Nat) (v : α) :
    mapUpd (mapUpd m a v) b v a = v := by
  by_cases h : a = b <;> simp [mapUpd, h]

lemma mapUpd_true_mono (m : Nat → Bool) (k n : Nat) (h : m n = true) :
    mapUpd m k true n = true := by
  by_cases hn : n = k <;> simp [mapUpd, hn, h]

/-- C3: `createMarriage` succeeds from any state in which neither supplied
nullifier is used or indexed — the state is otherwise arbitrary, so
`marriageId` may already name an existing, even active, `Marriage`
record, which the write overwrites.  The embedding mirrors the source:
there is no proof argument to verify and no caller check; the only
preconditions are the four nullifier checks, and on success the marriage
record is stored and both supplied nullifiers marked used. -/
theorem createMarriage_unrestricted (hm : HashModel) (now : Nat)
    (s : RegistryState) (mid n1 n2 ph1 ph2 : Nat)
    (h1 : s.usedNullifiers n1 = false) (h2 : s.usedNullifiers n2 = false)
    (h3 : s.nullifierToMarriage n1 = 0) (h4 : s.nullifierToMarriage n2 = 0) :
    execOp hm now s (.create mid n1 n2 ph1 ph2) = .ok { s with
      marriages := mapUpd s.marriages mid
        ⟨n1, n2, ph1, ph2, now, true, "default", hm.certOf mid now⟩
      nullifierToMarriage :=
        mapUpd (mapUpd s.nullifierToMarriage n1 mid) n2 mid
      usedNullifiers :=
        mapUpd (mapUpd s.usedNullifiers n1 true) n2 true } := by
  simp [execOp, h1, h2, h3, h4]

/-- A state holding an active marriage with id `7` between nullifiers `5`
and `6`. -/
def sMarried : RegistryState :=
  runTx hmDemo 0 RegistryState.init (.create 7 5 6 11 12)

/-- Witness for C3 at a state where `marriageId = 7` already names an
active marriage: the call still succeeds and overwrites it. -/
theorem createMarriage_unrestricted_witness :
    sMarried.usedNullifiers 8 = false ∧ sMarried.usedNullifiers 9 = false ∧
    sMarried.nullifierToMarriage 8 = 0 ∧ sMarried.nullifierToMarriage 9 = 0 ∧
    (sMarried.marriages 7).isActive = true ∧
    execOp hmDemo 1 sMarried (.create 7 8 9 21 22) = .ok { sMarried with
      marriages := mapUpd sMarried.marriages 7
        ⟨8, 9, 21, 22, 1, true, "default", hmDemo.certOf 7 1⟩
      nullifierToMarriage :=
        mapUpd (mapUpd sMarried.nullifierToMarriage 8 7) 9 7
      usedNullifiers :=
        mapUpd (mapUpd sMarried.usedNullifiers 8 true) 9 true } :=
  ⟨rfl, rfl, rfl, rfl, rfl,
   createMarriage_unrestricted hmDemo 1 sMarried 7 8 9 21 22 rfl rfl rfl rfl⟩

lemma merkle_fold_eq (hash : Nat → Nat → Nat) (proof : List Nat) (leaf : Nat) :
    proof.foldl
      (fun computedHash proofElement =>
        if computedHash ≤ proofElement then hash computedHash proofElement
        else hash proofElement computedHash) leaf
      = proof.foldl (fun acc p => hash (min acc p) (max acc p)) leaf := by
  induction proof generalizing leaf with
  | nil => rfl
  | cons p rest ih =>
    simp only [List.foldl_cons]
    rw [show (if leaf ≤ p then hash leaf p else hash p leaf)
        = hash (min leaf p) (max leaf p) by
      by_cases h : leaf ≤ p
      · simp [h, min_eq_left h, max_eq_right h]
      · have h2 : p ≤ leaf := le_of_not_le h
        simp [h, min_eq_right h2, max_eq_left h2]]
    exact ih (hash (min leaf p) (max leaf p))

/-- C9: the Merkle membership verifier is the pure total fold described by
the spec — at each level the two hash inputs are ordered by numeric value
before hashing — returning true iff the final accumulator equals the
root, and on an empty sibling path it validates exactly when
`leaf = root`. -/
theorem verifyMerkleProof_matches_spec (hash : Nat → Nat → Nat)
    (proof : List Nat) (root leaf : Nat) :
    verifyMerkleProof hash proof root leaf
      = verifyMembershipSpec hash proof root leaf ∧
    (verifyMerkleProof hash proof root leaf = true ↔
      proof.foldl
        (fun computedHash proofElement =>
          if computedHash ≤ proofElement then hash computedHash proofElement
          else hash proofElement computedHash) leaf = root) ∧
    verifyMerkleProof hash [] root leaf = decide (leaf = root) := by
  refine ⟨?_, ?_, rfl⟩
  · simp only [verifyMerkleProof, verifyMembershipSpec, merkle_fold_eq]
  · simp [verifyMerkleProof]

/-- C5: every mutating operation is atomic.  A revert rolls the whole
transaction back (`runTx` returns the pre-state untouched, so all four
mappings are unchanged), and a successful `acceptMarriage` applies all
four effects together: the proposal's accepted flag, the active marriage
record, both `nullifierToMarriage` entries, and both `usedNullifiers`
entries. -/
theorem registry_ops_atomic (hm : HashModel) (now : Nat) (s : RegistryState) :
    (∀ op e, execOp hm now s op = .error e → runTx hm now s op = s) ∧
    (∀ pid certHash s2, execOp hm now s (.accept pid certHash) = .ok s2 →
      (s2.proposals pid).isAccepted = true ∧
      (s2.marriages (hm.marriageIdOf (s.proposals pid).proposerNullifier
        (s.proposals pid).proposeeNullifier now
        (s.proposals pid).jurisdiction)).isActive = true ∧
      s2.nullifierToMarriage (s.proposals pid).proposerNullifier
        = hm.marriageIdOf (s.proposals pid).proposerNullifier
            (s.proposals pid).proposeeNullifier now
            (s.proposals pid).jurisdiction ∧
      s2.nullifierToMarriage (s.proposals pid).proposeeNullifier
        = hm.marriageIdOf (s.proposals pid).proposerNullifier
            (s.proposals pid).proposeeNullifier now
            (s.proposals pid).jurisdiction ∧
      s2.usedNullifiers (s.proposals pid).proposerNullifier = true ∧
      s2.usedNullifiers (s.proposals pid).proposeeNullifier = true) := by
  constructor
  · intro op e h
    simp [runTx, h]
  · intro pid certHash s2 h
    simp only [execOp] at h
    split at h
    · exact absurd h (by simp)
    · split at h
      · exact absurd h (by simp)
      · split at h
        · exact absurd h (by simp)
        · cases h
          refine ⟨?_, ?_, ?_, ?_, ?_, ?_⟩
          · simp [mapUpd_self]
          · simp [mapUpd_self]
          · exact mapUpd2_left ..
          · exact mapUpd_self ..
          · exact mapUpd_true_mono _ _ _ (mapUpd_self ..)
          · exact mapUpd_self ..

/-- A state holding the single pending proposal `1` (proposer nullifier
`2`, proposee nullifier `3`, expiry `100`). -/
def sOneProposal : RegistryState :=
  runTx hmDemo 0 RegistryState.init (.propose 1 2 3 0 100 "j" [1] [2])

/-- Witness for C5: a failing divorce leaves the fresh state unchanged,
and a concrete successful acceptance shows all four effects applied. -/
theorem registry_ops_atomic_witness :
    runTx hmDemo 0 RegistryState.init (.divorce 1 2) = RegistryState.init ∧
    (((runTx hmDemo 5 sOneProposal (.accept 1 9)).proposals 1).isAccepted = true ∧
      ((runTx hmDemo 5 sOneProposal (.accept 1 9)).marriages
        (hmDemo.marriageIdOf (sOneProposal.proposals 1).proposerNullifier
          (sOneProposal.proposals 1).proposeeNullifier 5
          (sOneProposal.proposals 1).jurisdiction)).isActive = true ∧
      (runTx hmDemo 5 sOneProposal (.accept 1 9)).nullifierToMarriage
          (sOneProposal.proposals 1).proposerNullifier
        = hmDemo.marriageIdOf (sOneProposal.proposals 1).proposerNullifier
            (sOneProposal.proposals 1).proposeeNullifier 5
            (sOneProposal.proposals 1).jurisdiction ∧
      (runTx hmDemo 5 sOneProposal (.accept 1 9)).nullifierToMarriage
          (sOneProposal.proposals 1).proposeeNullifier
        = hmDemo.marriageIdOf (sOneProposal.proposals 1).proposerNullifier
            (sOneProposal.proposals 1).proposeeNullifier 5
            (sOneProposal.proposals 1).jurisdiction ∧
      (runTx hmDemo 5 sOneProposal (.accept 1 9)).usedNullifiers
          (sOneProposal.proposals 1).proposerNullifier = true ∧
      (runTx hmDemo 5 sOneProposal (.accept 1 9)).usedNullifiers
          (sOneProposal.proposals 1).proposeeNullifier = true) :=
  ⟨(registry_ops_atomic hmDemo 0 RegistryState.init).1 (.divorce 1 2)
      .MarriageNotActive rfl,
   (registry_ops_atomic hmDemo 5 sOneProposal).2 1 9
      (runTx hmDemo 5 sOneProposal (.accept 1 9)) rfl⟩

/-- C6: accepting a proposal whose `expiresAt` lies strictly in the past
fails with `ProposalExpired` — the expiry is checked lazily here, no
operation ever marks the proposal expired — and the transaction leaves
the state (in particular the marriages map) unchanged. -/
theorem acceptMarriage_expired (hm : HashModel) (now : Nat)
    (s : RegistryState) (pid certHash : Nat)
    (hex : (s.proposals pid).proposerNullifier ≠ 0)
    (hpast : (s.proposals pid).expiresAt < now) :
    execOp hm now s (.accept pid certHash) = .error .ProposalExpired ∧
    runTx hm now s (.accept pid certHash) = s := by
  have h : execOp hm now s (.accept pid certHash) = .error .ProposalExpired := by
    simp [execOp, hex, hpast]
  exact ⟨h, by simp [runTx, h]⟩

/-- Witness for C6: the pending proposal `1` of `sOneProposal` expires at
`100`; accepting it at time `101` fails with `ProposalExpired`. -/
theorem acceptMarriage_expired_witness :
    (sOneProposal.proposals 1).proposerNullifier ≠ 0 ∧
    (sOneProposal.proposals 1).expiresAt < 101 ∧
    (execOp hmDemo 101 sOneProposal (.accept 1 9) = .error .ProposalExpired ∧
      runTx hmDemo 101 sOneProposal (.accept 1 9) = sOneProposal) :=
  ⟨by decide, by decide,
   acceptMarriage_expired hmDemo 101 sOneProposal 1 9 (by decide) (by decide)⟩

/-- C7: a spouse's first `requestDivorce` on an active marriage succeeds,
deactivates the record and clears both spouses' index entries; a second
`requestDivorce` on the same marriage, by anyone, fails with
`MarriageNotActive` and the transaction leaves the state unchanged. -/
theorem requestDivorce_once (hm : HashModel) (now now2 : Nat)
    (s : RegistryState) (mid req req2 : Nat)
    (hact : (s.marriages mid).isActive = true)
    (hreq : (s.marriages mid).spouse1Nullifier = req ∨
            (s.marriages mid).spouse2Nullifier = req) :
    ∃ s2, execOp hm now s (.divorce mid req) = .ok s2 ∧
      (s2.marriages mid).isActive = false ∧
      s2.nullifierToMarriage (s.marriages mid).spouse1Nullifier = 0 ∧
      s2.nullifierToMarriage (s.marriages mid).spouse2Nullifier = 0 ∧
      execOp hm now2 s2 (.divorce mid req2) = .error .MarriageNotActive ∧
      runTx hm now2 s2 (.divorce mid req2) = s2 := by
  have hnot : ¬((s.marriages mid).spouse1Nullifier ≠ req ∧
      (s.marriages mid).spouse2Nullifier ≠ req) := by
    rcases hreq with h | h <;> simp [h]
  have herr : execOp hm now2
      ({ s with
        marriages := mapUpd s.marriages mid
          { s.marriages mid with isActive := false }
        nullifierToMarriage :=
          mapUpd (mapUpd s.nullifierToMarriage
            (s.marriages mid).spouse1Nullifier 0)
            (s.marriages mid).spouse2Nullifier 0 } : RegistryState)
      (.divorce mid req2) = .error .MarriageNotActive := by
    simp [execOp, mapUpd_self]
  refine ⟨{ s with
      marriages := mapUpd s.marriages mid
        { s.marriages mid with isActive := false }
      nullifierToMarriage :=
        mapUpd (mapUpd s.nullifierToMarriage
          (s.marriages mid).spouse1Nullifier 0)
          (s.marriages mid).spouse2Nullifier 0 },
    ?_, ?_, ?_, ?_, herr, ?_⟩
  · simp [execOp, hact, hnot]
  · simp [mapUpd_self]
  · exact mapUpd2_left ..
  · exact mapUpd_self ..
  · simp [runTx, herr]

/-- Witness for C7 on the concrete married state `sMarried` (marriage `7`
between nullifiers `5` and `6`), spouse `5` divorcing first and spouse
`6` retrying. -/
theorem requestDivorce_once_witness :
    (sMarried.marriages 7).isActive = true ∧
    ((sMarried.marriages 7).spouse1Nullifier = 5 ∨
     (sMarried.marriages 7).spouse2Nullifier = 5) ∧
    (∃ s2, execOp hmDemo 1 sMarried (.divorce 7 5) = .ok s2 ∧
      (s2.marriages 7).isActive = false ∧
      s2.nullifierToMarriage (sMarried.marriages 7).spouse1Nullifier = 0 ∧
      s2.nullifierToMarriage (sMarried.marriages 7).spouse2Nullifier = 0 ∧
      execOp hmDemo 2 s2 (.divorce 7 6) = .error .MarriageNotActive ∧
      runTx hmDemo 2 s2 (.divorce 7 6) = s2) :=
  ⟨rfl, Or.inl rfl,
   requestDivorce_once hmDemo 1 2 sMarried 7 5 6 rfl (Or.inl rfl)⟩

/-- C8: `usedNullifiers` is monotonic — no successful operation, divorce
included, ever clears an entry — and `createMarriageProposal` naming a
consumed nullifier, whether as proposer or as proposee, always fails with
`NullifierAlreadyUsed`. -/
theorem usedNullifiers_monotone (hm : HashModel) (now : Nat)
    (s : RegistryState) (n : Nat) :
    (∀ op s2, execOp hm now s op = .ok s2 → s.usedNullifiers n = true →
      s2.usedNullifiers n = true) ∧
    (∀ pid proposerN proposeeN pHash expiration jur proof1 proof2,
      s.usedNullifiers n = true →
      proposerN = n ∨ proposeeN = n →
      execOp hm now s
        (.propose pid proposerN proposeeN pHash expiration jur proof1 proof2)
        = .error .NullifierAlreadyUsed) := by
  constructor
  · intro op s2 h hn
    cases op with
    | propose pid p1 p2 ph ex j q1 q2 =>
      simp only [execOp] at h
      split_ifs at h; cases h
      exact hn
    | accept pid cert =>
      simp only [execOp] at h
      split_ifs at h; cases h
      exact mapUpd_true_mono _ _ _ (mapUpd_true_mono _ _ _ hn)
    | create mid n1 n2 ph1 ph2 =>
      simp only [execOp] at h
      split_ifs at h; cases h
      exact mapUpd_true_mono _ _ _ (mapUpd_true_mono _ _ _ hn)
    | divorce mid req =>
      simp only [execOp] at h
      split_ifs at h; cases h
      exact hn
  · intro pid proposerN proposeeN pHash expiration jur proof1 proof2 hn hname
    rcases hname with h | h
    · subst h
      simp [execOp, hn]
    · subst h
      by_cases hp : s.usedNullifiers proposerN = true
      · simp [execOp, hp]
      · simp [execOp, hp, hn]

/-- State after `sMarried`'s marriage `7` has been dissolved by spouse
`5`. -/
def sDivorced : RegistryState :=
  runTx hmDemo 1 sMarried (.divorce 7 5)

/-- Witness for C8: nullifier `5`, consumed by marriage `7`, is still
marked used after the divorce, and a later proposal naming it — either as
proposer or as proposee — fails. -/
theorem usedNullifiers_monotone_witness :
    sMarried.usedNullifiers 5 = true ∧
    sDivorced.usedNullifiers 5 = true ∧
    execOp hmDemo 2 sDivorced (.propose 1 5 8 0 100 "j" [4] [7])
      = .error .NullifierAlreadyUsed ∧
    execOp hmDemo 2 sDivorced (.propose 1 8 5 0 100 "j" [7] [4])
      = .error .NullifierAlreadyUsed :=
  ⟨rfl,
   (usedNullifiers_monotone hmDemo 1 sMarried 5).1 (.divorce 7 5) sDivorced
     rfl rfl,
   (usedNullifiers_monotone hmDemo 2 sDivorced 5).2 1 5 8 0 100 "j" [4] [7]
     rfl (Or.inl rfl),
   (usedNullifiers_monotone hmDemo 2 sDivorced 5).2 1 8 5 0 100 "j" [7] [4]
     rfl (Or.inr rfl)⟩

/-- C10: the nullifier-bound check accepts a (proof, claimedNullifier)
pair exactly when the proof is nonempty and the nullifier re-derived from
the proof's hash and the fixed domain tag equals the claimed one; when
the check fails, `createMarriageProposal` (state preconditions met)
reverts with `InvalidZKPassportProof`. -/
theorem zkProof_binding (hm : HashModel) (proof proof2 : List Nat)
    (n : Nat) (now : Nat) (s : RegistryState)
    (pid proposeeN pHash expiration : Nat) (jur : String) :
    (verifyZKPassportProof hm proof n = true ↔
      proof ≠ [] ∧ hm.tagNullifier (hm.keccakBytes proof) = n) ∧
    (s.usedNullifiers n = false → s.usedNullifiers proposeeN = false →
     s.nullifierToMarriage n = 0 → s.nullifierToMarriage proposeeN = 0 →
     (s.proposals pid).proposerNullifier = 0 →
     verifyZKPassportProof hm proof n = false →
     execOp hm now s
        (.propose pid n proposeeN pHash expiration jur proof proof2)
       = .error .InvalidZKPassportProof) := by
  constructor
  · by_cases hp : proof = []
    · simp [verifyZKPassportProof, hp]
    · have hlen : proof.length ≠ 0 := by simpa using hp
      simp [verifyZKPassportProof, hlen, hp]
  · intro h1 h2 h3 h4 h5 hfail
    simp [execOp, h1, h2, h3, h4, h5, hfail]

/-- Witness for C10: proof `[1]` derives nullifier `2` under `hmDemo`,
so the claim of nullifier `5` is rejected and the proposal reverts. -/
theorem zkProof_binding_witness :
    RegistryState.init.usedNullifiers 5 = false ∧
    verifyZKPassportProof hmDemo [1] 5 = false ∧
    execOp hmDemo 0 RegistryState.init (.propose 1 5 8 0 100 "j" [1] [7])
      = .error .InvalidZKPassportProof :=
  ⟨rfl, rfl,
   (zkProof_binding hmDemo [1] [7] 5 0 RegistryState.init 1 8 0 100 "j").2
     rfl rfl rfl rfl rfl rfl⟩
